import Mathlib

/-!
Shallow embedding of the authenticated API client of the retinal-detection
frontend (`lib/api.ts`, `contexts/AuthContext.tsx`,
`components/ImageUpload.tsx`).

The browser `localStorage` is modelled as a record of the three session keys.
The axios instance `api` is modelled as a cooperative task: the request
interceptor runs synchronously when a call starts, and the response
interceptor's 401/refresh handler is split at its `await` points into resume
functions (`responseInterceptor` for a settled HTTP request,
`refreshSettled` for a settled refresh exchange).  A fueled driver `drive`
runs one call to completion against an environment `Env` that supplies the
network outcomes; `apiCall` is the whole pipeline for one request.
-/

deriving instance DecidableEq for Except

/-- The three localStorage keys used by the client. -/
inductive Key where
  | access_token
  | refresh_token
  | user
deriving DecidableEq, Repr

/-- The browser localStorage restricted to the three session keys. -/
structure Store where
  access_token : Option String
  refresh_token : Option String
  user : Option String
deriving DecidableEq, Repr

/-- `localStorage.getItem` (absent key gives `none`, i.e. JS `null`). -/
def Store.getItem (s : Store) : Key → Option String
  | Key.access_token => s.access_token
  | Key.refresh_token => s.refresh_token
  | Key.user => s.user

/-- `localStorage.setItem`. -/
def Store.setItem (s : Store) : Key → String → Store
  | Key.access_token, v => { s with access_token := some v }
  | Key.refresh_token, v => { s with refresh_token := some v }
  | Key.user, v => { s with user := some v }

/-- `localStorage.removeItem`. -/
def Store.removeItem (s : Store) : Key → Store
  | Key.access_token => { s with access_token := none }
  | Key.refresh_token => { s with refresh_token := none }
  | Key.user => { s with user := none }

/-- An axios request config: url, body, the `Authorization` header (`auth`),
and the `_retry` marker (absent on a fresh request, i.e. `false`). -/
structure Config where
  url : String
  body : String
  auth : Option String
  retry : Bool
deriving DecidableEq, Repr

/-- An axios rejection: `status` is `error.response?.status` (`none` when no
response arrived), `tag` identifies the error object. -/
structure Err where
  status : Option Nat
  tag : String
deriving DecidableEq, Repr

/-- An axios response with payload type `α` (`response.data : α`). -/
structure Resp (α : Type) where
  status : Nat
  data : α
deriving DecidableEq, Repr

/-- The network environment: outcome of dispatching a request config, and
outcome of the refresh exchange `POST /auth/refresh/` given the refresh
token carried in its body (`ok` carries `response.data.access`). -/
structure Env (α : Type) where
  send : Config → Except Err (Resp α)
  refresh : String → Except Err String

/-- The request interceptor (`api.interceptors.request.use`): read
`access_token` from the store; if present set the `Authorization` header to
`"Bearer " ++ token`; otherwise leave the config untouched. -/
def requestInterceptor (store : Store) (config : Config) : Config :=
  match store.getItem Key.access_token with
  | some token => { config with auth := some ("Bearer " ++ token) }
  | none => config

/-- One in-flight API call between await points: waiting on the HTTP request
itself, waiting on a refresh exchange (the config retained is
`originalRequest` with `_retry` set; `rt` is the refresh token carried in the
exchange's body), or settled. -/
inductive TaskState (α : Type) where
  | sending (cfg : Config)
  | refreshing (cfg : Config) (rt : String)
  | done (outcome : Except Err (Resp α))
deriving DecidableEq, Repr

/-- Result of resuming a task: new store, new task state, any
`window.location.href` assignment, the body of a refresh exchange issued by
this step, and the config of an HTTP request issued by this step. -/
structure Resume (α : Type) where
  store : Store
  task : TaskState α
  redirect : Option String
  refreshSent : Option String
  requestSent : Option Config
deriving Repr

/-- The response interceptor (`api.interceptors.response.use`), run when the
HTTP request settles, up to its first await.  Success passes the response
through.  On error: if the status is 401 and the request is not yet marked
`_retry`, mark it and read the refresh token; if present, issue the refresh
exchange (await); if absent, fall through to `Promise.reject(error)`.  Any
other error is rejected unchanged. -/
def responseInterceptor {α : Type} (store : Store) (cfg : Config)
    (r : Except Err (Resp α)) : Resume α :=
  match r with
  | Except.ok resp =>
      ⟨store, TaskState.done (Except.ok resp), none, none, none⟩
  | Except.error err =>
      if err.status = some 401 ∧ cfg.retry = false then
        match store.getItem Key.refresh_token with
        | some refreshToken =>
            ⟨store, TaskState.refreshing { cfg with retry := true } refreshToken,
              none, some refreshToken, none⟩
        | none =>
            ⟨store, TaskState.done (Except.error err), none, none, none⟩
      else
        ⟨store, TaskState.done (Except.error err), none, none, none⟩

/-- Continuation of the 401 handler once the refresh exchange settles.
Success: store the new access token, set the original request's
`Authorization` header to the new bearer token, and reissue it through
`api(originalRequest)` (whose request interceptor runs on the updated store).
Failure: remove the three session keys, navigate to `/login`, and reject
with the refresh error. -/
def refreshSettled {α : Type} (store : Store) (cfg : Config)
    (r : Except Err String) : Resume α :=
  match r with
  | Except.ok access =>
      let store' := store.setItem Key.access_token access
      let cfg' := requestInterceptor store'
        { cfg with auth := some ("Bearer " ++ access) }
      ⟨store', TaskState.sending cfg', none, none, some cfg'⟩
  | Except.error refreshError =>
      let store' := ((store.removeItem Key.access_token).removeItem
        Key.refresh_token).removeItem Key.user
      ⟨store', TaskState.done (Except.error refreshError),
        some "/login", none, none⟩

/-- The settled result of one API call together with its observable effects:
final store, any redirect, the number of refresh exchanges performed, the
number of HTTP dispatches of the request (initial send plus reissues), and
the outcome delivered to the caller. -/
structure DispatchResult (α : Type) where
  store : Store
  redirect : Option String
  refreshCount : Nat
  sendCount : Nat
  outcome : Except Err (Resp α)
deriving Repr

/-- Run one call to completion: feed each pending network operation its
outcome from the environment and resume.  The fuel only bounds the loop;
`apiCall` supplies enough for the deepest possible path (send, refresh,
reissued send). -/
def drive {α : Type} (env : Env α) : Nat → Store → TaskState α →
    Option String → Nat → Nat → DispatchResult α
  | _, store, TaskState.done o, redirect, refreshCount, sendCount =>
      ⟨store, redirect, refreshCount, sendCount, o⟩
  | 0, store, _, redirect, refreshCount, sendCount =>
      ⟨store, redirect, refreshCount, sendCount,
        Except.error ⟨none, "out-of-fuel"⟩⟩
  | Nat.succ fuel, store, TaskState.sending cfg, redirect, refreshCount, sendCount =>
      let h := responseInterceptor store cfg (env.send cfg)
      drive env fuel h.store h.task (h.redirect <|> redirect)
        refreshCount (sendCount + 1)
  | Nat.succ fuel, store, TaskState.refreshing cfg rt, redirect, refreshCount, sendCount =>
      let h := refreshSettled store cfg (env.refresh rt)
      drive env fuel h.store h.task (h.redirect <|> redirect)
        (refreshCount + 1) sendCount

/-- One complete call through the `api` instance: the request interceptor
runs, the request is dispatched, and the response interceptor (with its
possible refresh and single reissue) runs to completion. -/
def apiCall {α : Type} (env : Env α) (store : Store) (cfg : Config) :
    DispatchResult α :=
  drive env 4 store (TaskState.sending (requestInterceptor store cfg)) none 0 0

/-- `auth.logout`: remove the three session keys from localStorage. -/
def logout (s : Store) : Store :=
  ((s.removeItem Key.access_token).removeItem Key.refresh_token).removeItem
    Key.user

/-- `response.data` of `POST /auth/login/` as consumed by the client:
`response.access`, `response.refresh`, and `response.user` (the profile
payload; it is placed in localStorage via JSON serialization, modelled here
as the serialized payload itself). -/
structure LoginData where
  access : String
  refresh : String
  user : String
deriving DecidableEq, Repr

/-- The `AuthContext` provider state: the shared localStorage plus the React
`user` state (the serialized profile, `none` for a logged-out view). -/
structure AuthState where
  store : Store
  user : Option String
deriving DecidableEq, Repr

/-- The body of `AuthContext.login` after `await auth.login(credentials)`
has settled with result `r`: on rejection the error is rethrown and nothing
is touched; on success the three session keys are written (access, refresh,
user, in that order) and then the user state is set. -/
def loginStep (st : AuthState) (r : Except Err LoginData) :
    AuthState × Except Err Unit :=
  match r with
  | Except.error e => (st, Except.error e)
  | Except.ok d =>
      let store := ((st.store.setItem Key.access_token d.access).setItem
        Key.refresh_token d.refresh).setItem Key.user d.user
      (⟨store, some d.user⟩, Except.ok ())

/-- The request config built by `auth.login`: `api.post("/auth/login/",
credentials)` — fresh request, no preset `Authorization` header. -/
def loginConfig (credentials : String) : Config :=
  ⟨"/auth/login/", credentials, none, false⟩

/-- `auth.login` run through the full `api` pipeline. -/
def authLogin (env : Env LoginData) (store : Store) (credentials : String) :
    DispatchResult LoginData :=
  apiCall env store (loginConfig credentials)

/-- `AuthContext.login` composed with the dispatch of `auth.login`: the api
call runs on the shared store, and its settled result (`response.data` on
success) feeds `loginStep`. -/
def loginFull (env : Env LoginData) (st : AuthState) (credentials : String) :
    AuthState × Except Err Unit :=
  let r := authLogin env st.store credentials
  loginStep ⟨r.store, st.user⟩ (Except.map (fun resp => resp.data) r.outcome)

/-- A file dropped into `ImageUpload` (name and raw content bytes). -/
structure UploadedFile where
  name : String
  content : List Nat
deriving DecidableEq, Repr

/-- The object produced by `analyzeImage` in `ImageUpload.tsx`. -/
structure MockResult where
  prediction : String
  confidence : ℚ
  severity : String
  recommendations : List String
  detectedFeatures : List String
  riskFactors : List String
  filename : String
  analysisDate : String
deriving DecidableEq, Repr

/-- The fixed delay (ms) of the simulated API call in `analyzeImage`
(`setTimeout(resolve, 3000)`). -/
def analyzeDelayMs : Nat := 3000

/-- `analyzeImage` from `ImageUpload.tsx`: after the fixed delay it produces
the hardcoded `mockResult`; `now` is `new Date().toISOString()` at
completion time. -/
def analyzeImage (uploadedFile : UploadedFile) (now : String) : MockResult :=
  { prediction := "Diabetic Retinopathy Detected"
  , confidence := 87 / 100
  , severity := "Moderate"
  , recommendations :=
      [ "Consult with ophthalmologist within 2 weeks"
      , "Monitor blood sugar levels closely"
      , "Schedule follow-up examination in 3 months" ]
  , detectedFeatures :=
      [ "Microaneurysms present"
      , "Hard exudates detected"
      , "Cotton wool spots identified" ]
  , riskFactors := ["Diabetes", "Hypertension"]
  , filename := uploadedFile.name
  , analysisDate := now }

/-! Concrete scenarios used by witnesses and counterexamples. -/

/-- A store holding a full session. -/
def store1 : Store := ⟨some "A", some "R", some "U"⟩

/-- A store with no session at all. -/
def emptyStore : Store := ⟨none, none, none⟩

/-- A store with an access token but no refresh token. -/
def store3 : Store := ⟨some "A", none, some "U"⟩

/-- A fresh domain-client request. -/
def cfg1 : Config := ⟨"/patients/", "", none, false⟩

/-- The same request already marked `_retry`. -/
def cfg1r : Config := ⟨"/patients/", "", none, true⟩

/-- Server that 401s the first attempt and accepts the reissue; refresh
succeeds with token `NEW`. -/
def env1 : Env String :=
  ⟨fun c => if c.retry then Except.ok ⟨200, "fine"⟩
    else Except.error ⟨some 401, "expired"⟩,
   fun _ => Except.ok "NEW"⟩

/-- Server that 401s everything; the refresh exchange also rejects. -/
def env2 : Env String :=
  ⟨fun _ => Except.error ⟨some 401, "expired"⟩,
   fun _ => Except.error ⟨some 401, "stale-refresh"⟩⟩

/-- Server that 401s everything; the refresh exchange is never consulted. -/
def env3 : Env String :=
  ⟨fun _ => Except.error ⟨some 401, "unauthorized"⟩,
   fun _ => Except.error ⟨none, "unused"⟩⟩

/-- Server that rejects with a 500. -/
def env6 : Env String :=
  ⟨fun _ => Except.error ⟨some 500, "server-down"⟩,
   fun _ => Except.ok "X"⟩

/-- A stale session left in localStorage before a new login attempt. -/
def staleStore : Store := ⟨some "OLD", some "RT", some "OLDUSER"⟩

/-- Login server behaviour for wrong credentials: every `POST /auth/login/`
comes back 401, while the stale refresh token still exchanges fine. -/
def badCredsEnv : Env LoginData :=
  ⟨fun c => Except.error
      ⟨some 401, if c.retry then "badcreds-retry" else "badcreds"⟩,
   fun _ => Except.ok "NEWTOK"⟩

/-- A second fresh domain-client request, in flight at the same time as
`cfg1` in the concurrency scenario. -/
def cfg9 : Config := ⟨"/retinal-images/", "", none, false⟩

/-- The request interceptor never touches the `_retry` marker. -/
theorem requestInterceptor_retry (s : Store) (c : Config) :
    (requestInterceptor s c).retry = c.retry := by
  unfold requestInterceptor
  cases s.getItem Key.access_token <;> rfl

/-- Reading back a freshly written access token. -/
theorem getItem_setItem_access (s : Store) (v : String) :
    (s.setItem Key.access_token v).getItem Key.access_token = some v := rfl

/-- With an access token stored, the request interceptor rewrites the
`Authorization` header to the bearer form of that token. -/
theorem requestInterceptor_of_access {s : Store} {t : String} (c : Config)
    (h : s.getItem Key.access_token = some t) :
    requestInterceptor s c = { c with auth := some ("Bearer " ++ t) } := by
  unfold requestInterceptor
  rw [h]

/-- Big-step characterization of the refresh-success path: first send comes
back 401 on a not-yet-retried request, a refresh token is stored, and the
refresh exchange succeeds.  The call performs one refresh, stores the new
access token, reissues the original request once with the new bearer header,
and delivers that reissue's outcome. -/
theorem apiCall_refresh_ok {α : Type} (env : Env α) (store : Store)
    (cfg : Config) (e : Err) (rt tok : String)
    (hretry : cfg.retry = false)
    (hrt : store.getItem Key.refresh_token = some rt)
    (hsend : env.send (requestInterceptor store cfg) = Except.error e)
    (h401 : e.status = some 401)
    (hrefresh : env.refresh rt = Except.ok tok) :
    apiCall env store cfg =
      ⟨store.setItem Key.access_token tok, none, 1, 2,
        env.send { requestInterceptor store cfg with
          retry := true, auth := some ("Bearer " ++ tok) }⟩ := by
  have hretry' : (requestInterceptor store cfg).retry = false := by
    rw [requestInterceptor_retry, hretry]
  have hstep2 : requestInterceptor (store.setItem Key.access_token tok)
      { requestInterceptor store cfg with
        retry := true, auth := some ("Bearer " ++ tok) } =
      { requestInterceptor store cfg with
        retry := true, auth := some ("Bearer " ++ tok) } :=
    requestInterceptor_of_access _ (getItem_setItem_access store tok)
  simp only [apiCall, drive, responseInterceptor, refreshSettled, hsend, h401,
    hretry', hrt, hrefresh, hstep2, and_self, if_true, eq_self_iff_true]
  cases hres : env.send { requestInterceptor store cfg with
      retry := true, auth := some ("Bearer " ++ tok) } with
  | ok r => simp [drive, responseInterceptor, hres]
  | error e2 => simp [drive, responseInterceptor, hres]

/-- Big-step characterization of the refresh-failure path: first send comes
back 401 on a not-yet-retried request, a refresh token is stored, but the
refresh exchange rejects.  The call clears the three session keys, redirects
to `/login`, and rejects with the refresh error. -/
theorem apiCall_refresh_fail {α : Type} (env : Env α) (store : Store)
    (cfg : Config) (e : Err) (rt : String) (re : Err)
    (hretry : cfg.retry = false)
    (hrt : store.getItem Key.refresh_token = some rt)
    (hsend : env.send (requestInterceptor store cfg) = Except.error e)
    (h401 : e.status = some 401)
    (hrefresh : env.refresh rt = Except.error re) :
    apiCall env store cfg =
      ⟨⟨none, none, none⟩, some "/login", 1, 1, Except.error re⟩ := by
  have hretry' : (requestInterceptor store cfg).retry = false := by
    rw [requestInterceptor_retry, hretry]
  simp only [apiCall, drive, responseInterceptor, refreshSettled, hsend, h401,
    hretry', hrt, hrefresh, Store.removeItem, and_self, if_true,
    eq_self_iff_true]
  rfl

/-- Big-step characterization of the passthrough path: the send rejects with
an error that is not a 401, or the request is already marked retried.  The
call performs no refresh and no reissue, leaves the store untouched, and
rejects with the original error. -/
theorem apiCall_reject_other {α : Type} (env : Env α) (store : Store)
    (cfg : Config) (e : Err)
    (hsend : env.send (requestInterceptor store cfg) = Except.error e)
    (hcond : e.status ≠ some 401 ∨ cfg.retry = true) :
    apiCall env store cfg = ⟨store, none, 0, 1, Except.error e⟩ := by
  have hcond' : ¬(e.status = some 401 ∧
      (requestInterceptor store cfg).retry = false) := by
    rw [requestInterceptor_retry]
    rcases hcond with h | h
    · exact fun hc => h hc.1
    · intro hc
      rw [h] at hc
      exact Bool.noConfusion hc.2
  simp only [apiCall, drive, responseInterceptor, hsend, hcond', if_false]
  rfl

/-- Big-step characterization of the missing-refresh-token path: the send
rejects with 401 on a not-yet-retried request but no refresh token is
stored.  The 401 handler falls through: no refresh, no reissue, no redirect,
store untouched, and the original error is rejected. -/
theorem apiCall_no_refresh_token {α : Type} (env : Env α) (store : Store)
    (cfg : Config) (e : Err)
    (hretry : cfg.retry = false)
    (hrt : store.getItem Key.refresh_token = none)
    (hsend : env.send (requestInterceptor store cfg) = Except.error e)
    (h401 : e.status = some 401) :
    apiCall env store cfg = ⟨store, none, 0, 1, Except.error e⟩ := by
  have hretry' : (requestInterceptor store cfg).retry = false := by
    rw [requestInterceptor_retry, hretry]
  simp only [apiCall, drive, responseInterceptor, hsend, h401, hretry', hrt,
    and_self, if_true, eq_self_iff_true]
  rfl

/-- Claim C1: with a session stored (a refresh token present), a request
whose first dispatch rejects with 401 while not yet marked retried triggers
exactly one refresh exchange, is reissued exactly once carrying the new
access token as its bearer credential, and the caller receives the reissued
request's outcome. -/
theorem claim1_refresh_retry_once {α : Type} (env : Env α) (store : Store)
    (cfg : Config) (e : Err) (rt tok : String)
    (hretry : cfg.retry = false)
    (hrt : store.getItem Key.refresh_token = some rt)
    (hsend : env.send (requestInterceptor store cfg) = Except.error e)
    (h401 : e.status = some 401)
    (hrefresh : env.refresh rt = Except.ok tok) :
    (apiCall env store cfg).refreshCount = 1 ∧
    (apiCall env store cfg).sendCount = 2 ∧
    ∃ retried : Config,
      retried.auth = some ("Bearer " ++ tok) ∧
      (apiCall env store cfg).outcome = env.send retried := by
  rw [apiCall_refresh_ok env store cfg e rt tok hretry hrt hsend h401 hrefresh]
  exact ⟨rfl, rfl, ⟨_, rfl, rfl⟩⟩

/-- Witness for C1 at a concrete session, request, and server. -/
theorem claim1_witness :
    (cfg1.retry = false ∧
      store1.getItem Key.refresh_token = some "R" ∧
      env1.send (requestInterceptor store1 cfg1) =
        Except.error ⟨some 401, "expired"⟩ ∧
      (⟨some 401, "expired"⟩ : Err).status = some 401 ∧
      env1.refresh "R" = Except.ok "NEW") ∧
    (apiCall env1 store1 cfg1).refreshCount = 1 ∧
    (apiCall env1 store1 cfg1).sendCount = 2 ∧
    ∃ retried : Config,
      retried.auth = some ("Bearer " ++ "NEW") ∧
      (apiCall env1 store1 cfg1).outcome = env1.send retried :=
  ⟨⟨rfl, rfl, rfl, rfl, rfl⟩,
    claim1_refresh_retry_once env1 store1 cfg1 ⟨some 401, "expired"⟩ "R" "NEW"
      rfl rfl rfl rfl rfl⟩

/-- Claim C2: when the refresh exchange itself rejects, the client removes
all three session keys (the store ends empty), navigates to the login entry
point, and rejects the original call with the refresh error. -/
theorem claim2_refresh_failure_teardown {α : Type} (env : Env α)
    (store : Store) (cfg : Config) (e : Err) (rt : String) (re : Err)
    (hretry : cfg.retry = false)
    (hrt : store.getItem Key.refresh_token = some rt)
    (hsend : env.send (requestInterceptor store cfg) = Except.error e)
    (h401 : e.status = some 401)
    (hrefresh : env.refresh rt = Except.error re) :
    (∀ k, (apiCall env store cfg).store.getItem k = none) ∧
    (apiCall env store cfg).redirect = some "/login" ∧
    (apiCall env store cfg).outcome = Except.error re := by
  rw [apiCall_refresh_fail env store cfg e rt re hretry hrt hsend h401 hrefresh]
  refine ⟨fun k => ?_, rfl, rfl⟩
  cases k <;> rfl

/-- Witness for C2 at a concrete session, request, and server. -/
theorem claim2_witness :
    (cfg1.retry = false ∧
      store1.getItem Key.refresh_token = some "R" ∧
      env2.send (requestInterceptor store1 cfg1) =
        Except.error ⟨some 401, "expired"⟩ ∧
      (⟨some 401, "expired"⟩ : Err).status = some 401 ∧
      env2.refresh "R" = Except.error ⟨some 401, "stale-refresh"⟩) ∧
    (∀ k, (apiCall env2 store1 cfg1).store.getItem k = none) ∧
    (apiCall env2 store1 cfg1).redirect = some "/login" ∧
    (apiCall env2 store1 cfg1).outcome =
      Except.error ⟨some 401, "stale-refresh"⟩ :=
  ⟨⟨rfl, rfl, rfl, rfl, rfl⟩,
    claim2_refresh_failure_teardown env2 store1 cfg1 ⟨some 401, "expired"⟩
      "R" ⟨some 401, "stale-refresh"⟩ rfl rfl rfl rfl rfl⟩

/-- Counterexample to claim C3 as stated: with an access token but no
refresh token stored, a 401 on a fresh request does NOT clear the session
and does NOT redirect to login — the handler falls through and rejects with
the original error, leaving the store untouched. -/
theorem claim3_counterexample :
    (apiCall env3 store3 cfg1).store.getItem Key.access_token = some "A" ∧
    (apiCall env3 store3 cfg1).redirect = none ∧
    (apiCall env3 store3 cfg1).outcome =
      Except.error ⟨some 401, "unauthorized"⟩ := by
  decide

/-- Claim C3 (amended): on a 401 for a not-yet-retried request with no
refresh token stored, the client performs no refresh exchange and no
reissue, leaves the token store unchanged, performs no redirect, and
rejects the original call's promise with the original error. -/
theorem claim3_no_refresh_token_falls_through {α : Type} (env : Env α)
    (store : Store) (cfg : Config) (e : Err)
    (hretry : cfg.retry = false)
    (hrt : store.getItem Key.refresh_token = none)
    (hsend : env.send (requestInterceptor store cfg) = Except.error e)
    (h401 : e.status = some 401) :
    apiCall env store cfg = ⟨store, none, 0, 1, Except.error e⟩ :=
  apiCall_no_refresh_token env store cfg e hretry hrt hsend h401

/-- Witness for the amended C3 at a concrete store and server. -/
theorem claim3_witness :
    (cfg1.retry = false ∧
      store3.getItem Key.refresh_token = none ∧
      env3.send (requestInterceptor store3 cfg1) =
        Except.error ⟨some 401, "unauthorized"⟩ ∧
      (⟨some 401, "unauthorized"⟩ : Err).status = some 401) ∧
    apiCall env3 store3 cfg1 =
      ⟨store3, none, 0, 1, Except.error ⟨some 401, "unauthorized"⟩⟩ :=
  ⟨⟨rfl, rfl, rfl, rfl⟩,
    claim3_no_refresh_token_falls_through env3 store3 cfg1
      ⟨some 401, "unauthorized"⟩ rfl rfl rfl rfl⟩

/-- Claim C4: for a request built by the domain clients (no preset
`Authorization` header), the dispatched request carries
`"Bearer " ++ token` exactly when an access token is stored, and carries no
`Authorization` header when none is stored. -/
theorem claim4_bearer_iff (store : Store) (cfg : Config)
    (hauth : cfg.auth = none) :
    (∀ tok, store.getItem Key.access_token = some tok →
      (requestInterceptor store cfg).auth = some ("Bearer " ++ tok)) ∧
    (store.getItem Key.access_token = none →
      (requestInterceptor store cfg).auth = none) := by
  constructor
  · intro tok h
    rw [requestInterceptor_of_access cfg h]
  · intro h
    unfold requestInterceptor
    rw [h]
    exact hauth

/-- Witness for C4: with a stored token the header is the bearer form; with
an empty store the request goes out with no header. -/
theorem claim4_witness :
    (cfg1.auth = none ∧ store1.getItem Key.access_token = some "A" ∧
      emptyStore.getItem Key.access_token = none) ∧
    (requestInterceptor store1 cfg1).auth = some ("Bearer " ++ "A") ∧
    (requestInterceptor emptyStore cfg1).auth = none :=
  ⟨⟨rfl, rfl, rfl⟩,
    (claim4_bearer_iff store1 cfg1 rfl).1 "A" rfl,
    (claim4_bearer_iff emptyStore cfg1 rfl).2 rfl⟩

/-- Claim C5: a successful refresh replaces only the stored access token;
the refresh token and user keys are exactly as before. -/
theorem claim5_refresh_frame {α : Type} (env : Env α) (store : Store)
    (cfg : Config) (e : Err) (rt tok : String)
    (hretry : cfg.retry = false)
    (hrt : store.getItem Key.refresh_token = some rt)
    (hsend : env.send (requestInterceptor store cfg) = Except.error e)
    (h401 : e.status = some 401)
    (hrefresh : env.refresh rt = Except.ok tok) :
    (apiCall env store cfg).store.getItem Key.access_token = some tok ∧
    (apiCall env store cfg).store.getItem Key.refresh_token =
      store.getItem Key.refresh_token ∧
    (apiCall env store cfg).store.getItem Key.user =
      store.getItem Key.user := by
  rw [apiCall_refresh_ok env store cfg e rt tok hretry hrt hsend h401 hrefresh]
  exact ⟨rfl, rfl, rfl⟩

/-- Witness for C5 at a concrete session, request, and server. -/
theorem claim5_witness :
    (cfg1.retry = false ∧
      store1.getItem Key.refresh_token = some "R" ∧
      env1.send (requestInterceptor store1 cfg1) =
        Except.error ⟨some 401, "expired"⟩ ∧
      (⟨some 401, "expired"⟩ : Err).status = some 401 ∧
      env1.refresh "R" = Except.ok "NEW") ∧
    (apiCall env1 store1 cfg1).store.getItem Key.access_token = some "NEW" ∧
    (apiCall env1 store1 cfg1).store.getItem Key.refresh_token =
      store1.getItem Key.refresh_token ∧
    (apiCall env1 store1 cfg1).store.getItem Key.user =
      store1.getItem Key.user :=
  ⟨⟨rfl, rfl, rfl, rfl, rfl⟩,
    claim5_refresh_frame env1 store1 cfg1 ⟨some 401, "expired"⟩ "R" "NEW"
      rfl rfl rfl rfl rfl⟩

/-- Claim C6: an error that is not a 401, or whose request is already
marked retried, passes through: no refresh, no reissue, store untouched, no
redirect, and the caller's promise rejects with the original error. -/
theorem claim6_passthrough {α : Type} (env : Env α) (store : Store)
    (cfg : Config) (e : Err)
    (hsend : env.send (requestInterceptor store cfg) = Except.error e)
    (hcond : e.status ≠ some 401 ∨ cfg.retry = true) :
    apiCall env store cfg = ⟨store, none, 0, 1, Except.error e⟩ :=
  apiCall_reject_other env store cfg e hsend hcond

/-- Witness for C6: a 500 on a fresh request passes through, and a 401 on
an already-retried request passes through. -/
theorem claim6_witness :
    (env6.send (requestInterceptor store1 cfg1) =
        Except.error ⟨some 500, "server-down"⟩ ∧
      (⟨some 500, "server-down"⟩ : Err).status ≠ some 401 ∧
      env3.send (requestInterceptor store1 cfg1r) =
        Except.error ⟨some 401, "unauthorized"⟩ ∧
      cfg1r.retry = true) ∧
    apiCall env6 store1 cfg1 =
      ⟨store1, none, 0, 1, Except.error ⟨some 500, "server-down"⟩⟩ ∧
    apiCall env3 store1 cfg1r =
      ⟨store1, none, 0, 1, Except.error ⟨some 401, "unauthorized"⟩⟩ :=
  ⟨⟨rfl, by decide, rfl, rfl⟩,
    claim6_passthrough env6 store1 cfg1 ⟨some 500, "server-down"⟩ rfl
      (Or.inl (by decide)),
    claim6_passthrough env3 store1 cfg1r ⟨some 401, "unauthorized"⟩ rfl
      (Or.inr rfl)⟩

/-- Claim C7: `auth.logout` empties the token store, and running it twice
leaves the store empty both times (idempotence); as a total function it
throws nothing. -/
theorem claim7_logout_idempotent (s : Store) :
    (∀ k, (logout s).getItem k = none) ∧
    (∀ k, (logout (logout s)).getItem k = none) ∧
    logout (logout s) = logout s := by
  refine ⟨fun k => ?_, fun k => ?_, rfl⟩ <;> cases k <;> rfl

/-- Claim C8: `analyzeImage` resolves after the fixed 3000 ms delay with a
hardcoded diagnosis object — prediction, confidence (0.87), severity,
recommendations, detectedFeatures, and riskFactors are constants
independent of the uploaded file and of the time; only filename and
analysisDate depend on them. -/
theorem claim8_mock_analysis (f g : UploadedFile) (t u : String) :
    (analyzeImage f t).prediction = "Diabetic Retinopathy Detected" ∧
    (analyzeImage f t).confidence = 87 / 100 ∧
    (analyzeImage f t).severity = "Moderate" ∧
    (analyzeImage f t).prediction = (analyzeImage g u).prediction ∧
    (analyzeImage f t).confidence = (analyzeImage g u).confidence ∧
    (analyzeImage f t).severity = (analyzeImage g u).severity ∧
    (analyzeImage f t).recommendations = (analyzeImage g u).recommendations ∧
    (analyzeImage f t).detectedFeatures = (analyzeImage g u).detectedFeatures ∧
    (analyzeImage f t).riskFactors = (analyzeImage g u).riskFactors ∧
    (analyzeImage f t).filename = f.name ∧
    (analyzeImage f t).analysisDate = t ∧
    analyzeDelayMs = 3000 :=
  ⟨rfl, rfl, rfl, rfl, rfl, rfl, rfl, rfl, rfl, rfl, rfl, rfl⟩

/-- Claim C9: two requests sharing the store both fail with 401 and are
both resumed before either refresh settles.  Each independently issues its
own refresh exchange (no single-flight dedup, both carrying the shared
refresh token), and after both refresh responses are applied, the access
token left in the store is the one written last. -/
theorem claim9_concurrent_refresh (store : Store) (cfgA cfgB : Config)
    (eA eB : Err) (rt t1 t2 : String)
    (hrt : store.getItem Key.refresh_token = some rt)
    (hA : eA.status = some 401) (hB : eB.status = some 401)
    (hra : cfgA.retry = false) (hrb : cfgB.retry = false) :
    (responseInterceptor (α := String) store cfgA
        (Except.error eA)).refreshSent = some rt ∧
    (responseInterceptor (α := String) store cfgA (Except.error eA)).task =
      TaskState.refreshing { cfgA with retry := true } rt ∧
    (responseInterceptor (α := String) store cfgA
        (Except.error eA)).store = store ∧
    (responseInterceptor (α := String) store cfgB
        (Except.error eB)).refreshSent = some rt ∧
    (responseInterceptor (α := String) store cfgB (Except.error eB)).task =
      TaskState.refreshing { cfgB with retry := true } rt ∧
    (responseInterceptor (α := String) store cfgB
        (Except.error eB)).store = store ∧
    ((refreshSettled (α := String) store { cfgA with retry := true }
        (Except.ok t1)).store).getItem Key.access_token = some t1 ∧
    ((refreshSettled (α := String)
        (refreshSettled (α := String) store { cfgA with retry := true }
          (Except.ok t1)).store
        { cfgB with retry := true } (Except.ok t2)).store).getItem
      Key.access_token = some t2 := by
  have hcA : eA.status = some 401 ∧ cfgA.retry = false := ⟨hA, hra⟩
  have hcB : eB.status = some 401 ∧ cfgB.retry = false := ⟨hB, hrb⟩
  simp only [responseInterceptor, refreshSettled, if_pos hcA, if_pos hcB, hrt]
  simp [Store.setItem, Store.getItem]

/-- Witness for C9 at a concrete store, two concrete requests, and two
concrete refresh outcomes. -/
theorem claim9_witness :
    (store1.getItem Key.refresh_token = some "R" ∧
      (⟨some 401, "expA"⟩ : Err).status = some 401 ∧
      (⟨some 401, "expB"⟩ : Err).status = some 401 ∧
      cfg1.retry = false ∧ cfg9.retry = false) ∧
    (responseInterceptor (α := String) store1 cfg1
        (Except.error ⟨some 401, "expA"⟩)).refreshSent = some "R" ∧
    (responseInterceptor (α := String) store1 cfg1
        (Except.error ⟨some 401, "expA"⟩)).task =
      TaskState.refreshing { cfg1 with retry := true } "R" ∧
    (responseInterceptor (α := String) store1 cfg1
        (Except.error ⟨some 401, "expA"⟩)).store = store1 ∧
    (responseInterceptor (α := String) store1 cfg9
        (Except.error ⟨some 401, "expB"⟩)).refreshSent = some "R" ∧
    (responseInterceptor (α := String) store1 cfg9
        (Except.error ⟨some 401, "expB"⟩)).task =
      TaskState.refreshing { cfg9 with retry := true } "R" ∧
    (responseInterceptor (α := String) store1 cfg9
        (Except.error ⟨some 401, "expB"⟩)).store = store1 ∧
    ((refreshSettled (α := String) store1 { cfg1 with retry := true }
        (Except.ok "T1")).store).getItem Key.access_token = some "T1" ∧
    ((refreshSettled (α := String)
        (refreshSettled (α := String) store1 { cfg1 with retry := true }
          (Except.ok "T1")).store
        { cfg9 with retry := true } (Except.ok "T2")).store).getItem
      Key.access_token = some "T2" :=
  ⟨⟨rfl, rfl, rfl, rfl, rfl⟩,
    claim9_concurrent_refresh store1 cfg1 cfg9 ⟨some 401, "expA"⟩
      ⟨some 401, "expB"⟩ "R" "T1" "T2" rfl rfl rfl rfl rfl⟩

/-- Counterexample to claim C10 as stated: with a stale session stored, a
login attempt whose `POST /auth/login/` is rejected with 401 both times
still goes through a successful refresh exchange, so the rejected login
leaves a freshly written `access_token` in the store — a session key was
written even though the login request rejected. -/
theorem claim10_counterexample :
    (loginFull badCredsEnv ⟨staleStore, none⟩ "creds").2 =
      Except.error ⟨some 401, "badcreds-retry"⟩ ∧
    (loginFull badCredsEnv ⟨staleStore, none⟩
        "creds").1.store.getItem Key.access_token = some "NEWTOK" ∧
    staleStore.getItem Key.access_token = some "OLD" := by
  decide

/-- Claim C10 (amended): the `AuthContext.login` function itself is atomic
on the store: when the awaited login call rejects, it writes no session key
and leaves the user state unchanged (in particular null stays null),
rethrowing the error; when the call resolves, all three keys are written
from the response and then the user state is set.  (The dispatcher's 401
refresh handling *during* a rejected login call may independently update
the store, as the counterexample shows.) -/
theorem claim10_login_step_atomic (st : AuthState)
    (r : Except Err LoginData) :
    (∀ e, r = Except.error e → loginStep st r = (st, Except.error e)) ∧
    (∀ d, r = Except.ok d →
      (loginStep st r).1.store.getItem Key.access_token = some d.access ∧
      (loginStep st r).1.store.getItem Key.refresh_token = some d.refresh ∧
      (loginStep st r).1.store.getItem Key.user = some d.user ∧
      (loginStep st r).1.user = some d.user ∧
      (loginStep st r).2 = Except.ok ()) := by
  constructor
  · intro e he
    rw [he]
    rfl
  · intro d hd
    rw [hd]
    exact ⟨rfl, rfl, rfl, rfl, rfl⟩

/-- Witness for the amended C10: a rejected login leaves the state alone; a
resolved login stores the profile and sets the user. -/
theorem claim10_witness :
    loginStep ⟨staleStore, none⟩ (Except.error ⟨some 400, "bad"⟩) =
      (⟨staleStore, none⟩, Except.error ⟨some 400, "bad"⟩) ∧
    (loginStep ⟨emptyStore, none⟩
        (Except.ok ⟨"A2", "R2", "U2"⟩)).1.user = some "U2" :=
  ⟨(claim10_login_step_atomic ⟨staleStore, none⟩ _).1 _ rfl,
    ((claim10_login_step_atomic ⟨emptyStore, none⟩ _).2
      ⟨"A2", "R2", "U2"⟩ rfl).2.2.2.1⟩
